import Mathlib

/-
  Shallow embedding of the real-time spectral waterfall client implemented in
  src/kenneth-dashboard/src/lib/WaterfallCanvas.svelte.

  Numbers that are JavaScript floats in the source are modelled as rationals
  (ℚ); every arithmetic operation the embedded code performs is exact at the
  values the theorems use.  The component is a Svelte component; its
  event-driven behaviour (websocket open/message/close/error events, prop
  changes, the reconnect timer, mount and teardown) is modelled as a step
  function on an explicit state record, with one reactive flush per event,
  matching Svelte's batching of `$:` statements between macrotasks.
-/

namespace Waterfall

/-- Math.round for the non-negative rationals this code feeds it:
JavaScript rounds half away from zero toward +infinity, i.e. floor (x + 1/2). -/
def jsRound (x : ℚ) : ℤ := ⌊x + 1/2⌋

/-! ## Colormap Engine (WaterfallCanvas.svelte lines 42-81) -/

/-- Inferno colormap lookup table, 256 RGB triples flattened to 768 bytes,
transcribed verbatim from the `INFERNO_LUT` Uint8Array literal. -/
def INFERNO_LUT : List ℕ := [
  0,0,4, 1,0,5, 1,1,6, 1,1,8, 2,1,9, 2,2,11, 2,2,13, 3,3,15,
  3,3,18, 4,4,20, 5,4,22, 6,5,24, 6,5,26, 7,6,28, 8,7,30, 9,7,32,
  10,8,34, 11,9,36, 12,9,38, 13,10,41, 14,11,43, 16,11,45, 17,12,47, 18,13,49,
  19,13,52, 20,14,54, 21,14,56, 22,15,59, 24,15,61, 25,16,63, 26,16,66, 28,16,68,
  29,17,71, 30,17,73, 32,17,75, 33,17,78, 34,17,80, 36,18,83, 37,18,85, 39,18,88,
  41,17,90, 42,17,92, 44,17,95, 45,17,97, 47,17,99, 49,17,101, 51,16,103, 52,16,105,
  54,16,107, 56,15,109, 57,15,111, 59,15,113, 61,15,114, 63,15,116, 64,15,117, 66,15,119,
  68,15,120, 69,14,122, 71,14,123, 73,14,124, 74,14,126, 76,14,127, 77,14,128, 79,13,129,
  81,13,130, 82,13,131, 84,13,132, 85,13,133, 87,13,134, 89,13,135, 90,13,136, 92,13,137,
  93,13,138, 95,13,139, 97,13,139, 98,13,140, 100,13,141, 101,13,141, 103,13,142, 105,13,142,
  106,13,143, 108,14,143, 109,14,144, 111,14,144, 113,14,144, 114,14,145, 116,15,145, 117,15,145,
  119,15,145, 120,16,145, 122,16,146, 124,16,146, 125,17,146, 127,17,146, 128,17,146, 130,18,146,
  132,18,146, 133,18,146, 135,19,146, 136,19,146, 138,20,146, 140,20,146, 141,21,146, 143,21,146,
  144,22,146, 146,22,145, 148,23,145, 149,23,145, 151,24,145, 152,24,144, 154,25,144, 156,25,144,
  157,26,143, 159,27,143, 160,27,142, 162,28,142, 163,29,141, 165,29,141, 167,30,140, 168,31,140,
  170,31,139, 171,32,139, 173,33,138, 175,33,137, 176,34,137, 178,35,136, 179,36,135, 181,36,135,
  183,37,134, 184,38,133, 186,39,133, 187,40,132, 189,41,131, 190,42,130, 192,43,129, 194,43,129,
  195,44,128, 197,45,127, 198,46,126, 200,47,125, 201,48,124, 203,49,123, 205,50,122, 206,51,121,
  208,52,120, 209,53,119, 211,54,118, 212,55,117, 214,56,116, 215,57,115, 217,58,114, 218,60,113,
  220,61,112, 221,62,111, 223,63,110, 224,65,109, 226,66,108, 227,67,107, 229,68,106, 230,70,105,
  231,71,104, 233,72,103, 234,74,101, 236,75,100, 237,77,99, 238,78,98, 240,80,97, 241,81,96,
  242,83,95, 244,84,94, 245,86,92, 246,87,91, 247,89,90, 249,91,89, 250,92,88, 251,94,87,
  252,96,85, 253,97,84, 254,99,83, 254,101,82, 255,103,80, 255,105,79, 255,107,78, 255,109,77,
  255,111,75, 255,113,74, 255,115,72, 255,117,71, 255,119,70, 255,121,68, 255,123,67, 255,125,65,
  255,127,64, 255,129,62, 255,131,61, 255,133,59, 255,135,58, 255,137,56, 255,139,55, 255,141,53,
  255,143,52, 254,145,50, 254,148,49, 254,150,47, 254,152,46, 254,154,44, 253,156,43, 253,158,41,
  253,161,40, 253,163,38, 252,165,37, 252,167,35, 252,169,34, 251,172,33, 251,174,31, 250,176,30,
  250,178,28, 249,181,27, 249,183,26, 248,185,24, 248,187,23, 247,190,22, 247,192,20, 246,194,19,
  246,197,18, 245,199,16, 244,201,15, 244,204,14, 243,206,13, 243,208,12, 242,211,10, 242,213,9,
  241,215,9, 240,218,8, 240,220,7, 239,223,6, 238,225,6, 238,227,5, 237,230,5, 236,232,4,
  236,235,4, 235,237,3, 234,240,3, 234,242,3, 233,245,3, 232,247,3, 232,250,3, 231,252,4]

def MIN_DBFS : ℚ := -120

def MAX_DBFS : ℚ := -20

/-- dbfsToLutIdx from the source:
Math.round(Math.max(0, Math.min(1, (v - MIN_DBFS) / (MAX_DBFS - MIN_DBFS))) * 255). -/
def dbfsToLutIdx (v : ℚ) : ℤ :=
  jsRound (max 0 (min 1 ((v - MIN_DBFS) / (MAX_DBFS - MIN_DBFS))) * 255)

/-- One RGBA pixel as written into the row's Uint8ClampedArray. -/
structure Rgba where
  r : ℕ
  g : ℕ
  b : ℕ
  a : ℕ
  deriving DecidableEq, Repr

/-- Read the LUT at a byte offset (always in range for indices this code produces). -/
def lutAt (n : ℕ) : ℕ := INFERNO_LUT.getD n 0

/-- Color written for one sample value: rowData gets INFERNO_LUT at offsets
lut, lut+1, lut+2 with lut = dbfsToLutIdx(val) * 3, and alpha 255. -/
def colormapRgba (v : ℚ) : Rgba :=
  let lut := (dbfsToLutIdx v).toNat * 3
  ⟨lutAt lut, lutAt (lut + 1), lutAt (lut + 2), 255⟩

/-- Background fill color '#071126' painted by setCanvasSize (alpha 255 from fillRect). -/
def background : Rgba := ⟨7, 17, 38, 255⟩

/-! ## Scroll Buffer Renderer (WaterfallCanvas.svelte lines 94-113) -/

/-- JavaScript array read `l[i]` for a possibly negative index: undefined
(none) when the index is out of range.  drawRow follows it with `?? MIN_DBFS`. -/
def jsIndex (l : List ℚ) (i : ℤ) : Option ℚ :=
  if i < 0 then none else l[i.toNat]?

/-- The new top row painted by drawRow's pixel loop: for x in [0, w),
binIdx = floor((x / w) * dbfs.length), value = dbfs[min(dbfs.length - 1, binIdx)]
?? MIN_DBFS, color taken from the Inferno LUT.  Note that when dbfs is empty
the index min(-1, 0) = -1 is out of range, so every pixel falls back to
MIN_DBFS. -/
def renderRow (w : ℕ) (dbfs : List ℚ) : List Rgba :=
  (List.range w).map fun (x : ℕ) =>
    let binIdx : ℤ := ⌊((x : ℚ) / (w : ℚ)) * (dbfs.length : ℚ)⌋
    let idx : ℤ := min ((dbfs.length : ℤ) - 1) binIdx
    let val : ℚ := (jsIndex dbfs idx).getD MIN_DBFS
    colormapRgba val

/-- drawRow on the raster (list of rows, top first): the drawImage call copies
rows 0..h-2 onto rows 1..h-1 (one-row downward shift, bottom row discarded)
and putImageData writes the freshly rendered row at the top.  Modelled at
devicePixelRatio 1, where the canvas backing height equals plotHeight. -/
def drawRow (w h : ℕ) (raster : List (List Rgba)) (dbfs : List ℚ) : List (List Rgba) :=
  renderRow w dbfs :: raster.take (h - 1)

/-! ## Wire protocol (WaterfallCanvas.svelte lines 83-92 and 126-137) -/

/-- Shape of the dbfs field of a parsed inbound JSON object: either an array
of numbers or some non-array JSON value. -/
inductive DbfsField
  | arr (samples : List ℚ)
  | nonArray
  deriving DecidableEq

/-- Fields of a parsed inbound JSON object that the message handler reads.
A missing field is none (JavaScript undefined). -/
structure InPayload where
  type : Option String
  dbfs : Option DbfsField
  frame_rate_hz : Option ℚ
  source : Option String
  deriving DecidableEq

/-- An inbound websocket message: malformed means JSON.parse throws (caught
and ignored by the handler's try/catch). -/
inductive Inbound
  | malformed
  | payload (p : InPayload)
  deriving DecidableEq

/-- The message handler's acceptance test
(payload.type !== 'spectrum' || !Array.isArray(payload.dbfs) means reject):
returns the dbfs samples when the message is accepted, none otherwise. -/
def spectrumSamples (d : Inbound) : Option (List ℚ) :=
  match d with
  | .malformed => none
  | .payload p =>
    if p.type = some "spectrum" then
      match p.dbfs with
      | some (.arr xs) => some xs
      | _ => none
    else none

/-- An outbound message; the constant field type: 'set_config' is implicit. -/
structure OutMsg where
  center_hz : ℚ
  bandwidth_hz : ℚ
  deriving DecidableEq

/-! ## Component state and event step -/

/-- WebSocket readyState values the component can observe. -/
inductive SocketState
  | connecting
  | opened
  | closed
  deriving DecidableEq

/-- The component's mutable variables.  reconnectTimer is some d when a
reconnect timer with delay d (milliseconds) is pending, none otherwise
(clearTimeout and firing both clear it).  observing records whether the
ResizeObserver is attached. -/
structure CState where
  socket : Option SocketState
  reconnectTimer : Option ℕ
  reconnectAttempts : ℕ
  connected : Bool
  sourceMode : String
  frameRateHz : ℚ
  centerHz : ℚ
  bandwidthHz : ℚ
  plotHeight : ℕ
  leftHz : ℚ
  rightHz : ℚ
  visibleSeconds : ℤ
  width : ℕ
  raster : List (List Rgba)
  observing : Bool
  deriving DecidableEq

/-- sendConfig from the source: a no-op unless the socket exists and its
readyState is OPEN; otherwise it sends one set_config message with the
bandwidth clamped to the 2 MHz floor. -/
def sendConfig (s : CState) : List OutMsg :=
  if s.socket = some .opened then
    [{ center_hz := s.centerHz, bandwidth_hz := max 2000000 s.bandwidthHz }]
  else []

/-- The delay computed in the close handler: min(5000, 500 + attempts * 400),
evaluated after the attempt counter has been incremented. -/
def reconnectDelay (attempts : ℕ) : ℕ := min 5000 (500 + attempts * 400)

/-- visibleSeconds reactive derivation: Math.max(1, Math.round(plotHeight /
frameRateHz)).  Division by zero is 0 in ℚ; the component never sets
frameRateHz to 0 from its own code (initial value 20). -/
def visibleSecondsOf (plotHeight : ℕ) (frameRateHz : ℚ) : ℤ :=
  max 1 (jsRound ((plotHeight : ℚ) / frameRateHz))

/-- Events delivered to the component, each followed by one reactive flush:
mountEv is onMount (setCanvasSize then connect) with the observed client
width; openEv, messageEv, closeEv, errorEv are the websocket listeners;
setPropsEv is the parent changing the centerHz/bandwidthHz props; timerFireEv
is the pending reconnect timeout firing (calling connect); teardownEv is the
onMount cleanup (disconnect observer, clearTimeout, socket.close()). -/
inductive Event
  | mountEv (clientWidth : ℕ)
  | openEv
  | messageEv (d : Inbound)
  | closeEv
  | errorEv
  | setPropsEv (c b : ℚ)
  | timerFireEv
  | teardownEv
  deriving DecidableEq

/-- One event-handler execution followed by its reactive flush, returning the
new state and the set_config messages sent during the turn.

Svelte's `$: if (connected) sendConfig();` statement has exactly one reactive
dependency: the variable `connected`, the only component variable referenced
directly in the statement (centerHz and bandwidthHz appear only inside the
body of the called function sendConfig, which Svelte does not trace).  The
statement therefore re-runs in the flush exactly when `connected` was
assigned a different value during the handler.  The derivations
`$: leftHz = ...`, `$: rightHz = ...` depend on centerHz and bandwidthHz, and
`$: visibleSeconds = ...` depends on plotHeight and frameRateHz; each is
recomputed in the flush of the handlers that assign its dependencies. -/
def step (e : Event) (s : CState) : CState × List OutMsg :=
  match e with
  | .mountEv clientWidth =>
    -- setCanvasSize: backing store max(1, clientWidth) wide (devicePixelRatio
    -- 1) and plotHeight tall, filled with the background color; then connect()
    -- creates the socket (readyState CONNECTING); the ResizeObserver attaches.
    let w := max 1 clientWidth
    ({ s with width := w,
              raster := List.replicate s.plotHeight (List.replicate w background),
              socket := some .connecting,
              observing := true }, [])
  | .openEv =>
    -- open listener: connected = true; reconnectAttempts = 0; sendConfig().
    -- The flush then re-runs the reactive statement iff connected changed.
    let s1 := { s with socket := some .opened, connected := true, reconnectAttempts := 0 }
    let direct := sendConfig s1
    let reactive := if s.connected then [] else sendConfig s1
    (s1, direct ++ reactive)
  | .messageEv d =>
    match d with
    | .malformed => (s, [])
    | .payload p =>
      if p.type = some "spectrum" then
        match p.dbfs with
        | some (.arr xs) =>
          let s1 := { s with
            frameRateHz := p.frame_rate_hz.getD s.frameRateHz,
            sourceMode := (p.source).getD s.sourceMode,
            raster := drawRow s.width s.plotHeight s.raster xs }
          ({ s1 with visibleSeconds := visibleSecondsOf s1.plotHeight s1.frameRateHz }, [])
        | _ => (s, [])
      else (s, [])
  | .closeEv =>
    -- close listener: connected = false; sourceMode = 'reconnecting';
    -- reconnectAttempts += 1; setTimeout(connect, min(5000, 500 + attempts*400)).
    -- The flush re-runs the reactive statement when connected changed, but its
    -- guard `if (connected)` is now false, so nothing is sent.
    let att := s.reconnectAttempts + 1
    ({ s with socket := some .closed,
              connected := false,
              sourceMode := "reconnecting",
              reconnectAttempts := att,
              reconnectTimer := some (reconnectDelay att) }, [])
  | .errorEv =>
    -- error listener: connected = false; sourceMode = 'error'.  No increment,
    -- no timer; the reactive statement's guard is false in the flush.
    ({ s with connected := false, sourceMode := "error" }, [])
  | .setPropsEv c b =>
    -- Prop assignment dirties centerHz/bandwidthHz: leftHz and rightHz are
    -- recomputed from the unclamped values.  The send statement depends only
    -- on `connected` and does not re-run, so no message is produced.
    let s1 := { s with centerHz := c, bandwidthHz := b }
    ({ s1 with leftHz := s1.centerHz - s1.bandwidthHz / 2,
               rightHz := s1.centerHz + s1.bandwidthHz / 2 }, [])
  | .timerFireEv =>
    -- A pending reconnect timeout fires: the pending entry is consumed and
    -- connect() runs, replacing the (closed) socket with a fresh CONNECTING
    -- one.  With no timer pending there is nothing to fire.
    match s.reconnectTimer with
    | none => (s, [])
    | some _ => ({ s with reconnectTimer := none, socket := some .connecting }, [])
  | .teardownEv =>
    -- onMount cleanup: resizeObserver.disconnect(); if (reconnectTimer)
    -- clearTimeout(reconnectTimer); if (socket) socket.close().  Closing a
    -- live socket makes the browser fire its close event afterwards; that
    -- later event is delivered as a separate closeEv in a trace.
    ({ s with observing := false,
              reconnectTimer := none,
              socket := s.socket.map fun _ => .closed }, [])

/-- Run a trace of events, accumulating the outbound messages in order. -/
def run : CState → List Event → CState × List OutMsg
  | s, [] => (s, [])
  | s, e :: es =>
    let p := step e s
    let q := run p.1 es
    (q.1, p.2 ++ q.2)

/-- Initial component state from the props (wsUrl omitted; defaults
centerHz = 156800000, bandwidthHz = 2000000, plotHeight = 260), before
onMount runs: no socket, no timer, initial reactive values from lines 12-18. -/
def initState (centerHz bandwidthHz : ℚ) (plotHeight : ℕ) : CState :=
  { socket := none,
    reconnectTimer := none,
    reconnectAttempts := 0,
    connected := false,
    sourceMode := "disconnected",
    frameRateHz := 20,
    centerHz := centerHz,
    bandwidthHz := bandwidthHz,
    plotHeight := plotHeight,
    leftHz := centerHz - bandwidthHz / 2,
    rightHz := centerHz + bandwidthHz / 2,
    visibleSeconds := visibleSecondsOf plotHeight 20,
    width := 0,
    raster := [],
    observing := false }

/-- A valid spectrum message carrying the given samples and no optional fields. -/
def spectrumMsg (xs : List ℚ) : Inbound :=
  .payload { type := some "spectrum", dbfs := some (.arr xs),
             frame_rate_hz := none, source := none }

/-! ## Helper lemmas -/

/-- Unfolding run over a cons of events. -/
theorem run_cons (s : CState) (e : Event) (es : List Event) :
    run s (e :: es) =
      ((run (step e s).1 es).1, (step e s).2 ++ (run (step e s).1 es).2) := rfl

/-- Any message produced by sendConfig carries the clamped bandwidth. -/
theorem mem_sendConfig {s : CState} {m : OutMsg} (hm : m ∈ sendConfig s) :
    m = { center_hz := s.centerHz, bandwidth_hz := max 2000000 s.bandwidthHz } := by
  unfold sendConfig at hm
  split at hm
  · simpa using hm
  · simp at hm

/-- Every message produced by a single event step comes from some sendConfig call. -/
theorem mem_step_out {e : Event} {s : CState} {m : OutMsg} (hm : m ∈ (step e s).2) :
    ∃ t : CState, m ∈ sendConfig t := by
  cases e with
  | mountEv w => simp [step] at hm
  | openEv =>
    simp only [step, List.mem_append] at hm
    rcases hm with hm | hm
    · exact ⟨_, hm⟩
    · split at hm
      · simp at hm
      · exact ⟨_, hm⟩
  | messageEv d =>
    cases d with
    | malformed => simp [step] at hm
    | payload p =>
      by_cases hp : p.type = some "spectrum"
      · simp only [step, hp, if_true] at hm
        rcases hd : p.dbfs with _ | f
        · rw [hd] at hm; simp at hm
        · cases f with
          | arr xs => rw [hd] at hm; simp at hm
          | nonArray => rw [hd] at hm; simp at hm
      · simp [step, hp] at hm
  | closeEv => simp [step] at hm
  | errorEv => simp [step] at hm
  | setPropsEv c b => simp [step] at hm
  | timerFireEv =>
    rcases ht : s.reconnectTimer with _ | d
    · simp [step, ht] at hm
    · simp [step, ht] at hm
  | teardownEv => simp [step] at hm

/-- Every message produced along any trace comes from some sendConfig call. -/
theorem mem_run_out {s : CState} {es : List Event} {m : OutMsg}
    (hm : m ∈ (run s es).2) : ∃ t : CState, m ∈ sendConfig t := by
  induction es generalizing s with
  | nil => simp [run] at hm
  | cons e es ih =>
    rw [run_cons] at hm
    rcases List.mem_append.mp hm with hm | hm
    · exact mem_step_out hm
    · exact ih hm

/-! ## Claim C3 -/

/-- C3 counterexample: the claim says every close OR ERROR increments the
attempt counter and schedules a reconnect.  After mount, open and then an
error event, the attempt counter is still 0 and no reconnect timer is
pending: the error listener only clears `connected` and sets the status
label, it neither increments nor schedules. -/
theorem c3_counterexample :
    (run (initState 156800000 2000000 4) [.mountEv 2, .openEv, .errorEv]).1.reconnectAttempts
        = 0 ∧
    (run (initState 156800000 2000000 4) [.mountEv 2, .openEv, .errorEv]).1.reconnectTimer
        = none := by
  exact ⟨by decide, by decide⟩

/-- C3 (amended): only a close event increments the attempt counter and
schedules a reconnect, with delay min(5000ms, 500ms + attempts × 400ms); the
delays for attempts 1 through 5 are 900, 1300, 1700, 2100, 2500 ms and the
delay for attempt 12 and beyond is exactly 5000 ms; a successful open resets
the counter to zero; an error event changes neither the counter nor the
timer (it only clears `connected` and sets the status label to 'error'). -/
theorem c3_amended :
    (∀ s : CState,
      (step .closeEv s).1.reconnectAttempts = s.reconnectAttempts + 1 ∧
      (step .closeEv s).1.reconnectTimer
          = some (reconnectDelay (s.reconnectAttempts + 1))) ∧
    (reconnectDelay 1 = 900 ∧ reconnectDelay 2 = 1300 ∧ reconnectDelay 3 = 1700 ∧
      reconnectDelay 4 = 2100 ∧ reconnectDelay 5 = 2500) ∧
    (∀ n : ℕ, 12 ≤ n → reconnectDelay n = 5000) ∧
    (∀ s : CState, (step .openEv s).1.reconnectAttempts = 0) ∧
    (∀ s : CState,
      (step .errorEv s).1.reconnectAttempts = s.reconnectAttempts ∧
      (step .errorEv s).1.reconnectTimer = s.reconnectTimer) := by
  refine ⟨fun s => ⟨rfl, rfl⟩, by decide, fun n hn => ?_, fun s => rfl,
    fun s => ⟨rfl, rfl⟩⟩
  unfold reconnectDelay
  omega

/-- Witness for C3 (amended), discharging the 12 ≤ n hypothesis at n = 12. -/
theorem c3_witness : (12 : ℕ) ≤ 12 ∧ reconnectDelay 12 = 5000 :=
  ⟨le_refl 12, c3_amended.2.2.1 12 (le_refl 12)⟩

/-! ## Claim C5 -/

/-- C5: every transmitted set_config message has bandwidth_hz at least
2,000,000 Hz, over every event trace from every state; a state requesting
bandwidth 1,000,000 transmits 2,000,000, and one requesting 5,000,000
transmits 5,000,000 unchanged. -/
theorem c5_bandwidth_floor :
    (∀ (s : CState) (es : List Event) (m : OutMsg),
      m ∈ (run s es).2 → 2000000 ≤ m.bandwidth_hz) ∧
    (∀ s : CState, s.socket = some .opened → s.bandwidthHz = 1000000 →
      sendConfig s = [{ center_hz := s.centerHz, bandwidth_hz := 2000000 }]) ∧
    (∀ s : CState, s.socket = some .opened → s.bandwidthHz = 5000000 →
      sendConfig s = [{ center_hz := s.centerHz, bandwidth_hz := 5000000 }]) := by
  refine ⟨fun s es m hm => ?_, fun s hsock hbw => ?_, fun s hsock hbw => ?_⟩
  · obtain ⟨t, ht⟩ := mem_run_out hm
    rw [mem_sendConfig ht]
    exact le_max_left _ _
  · rw [sendConfig, if_pos hsock, hbw]
    norm_num
  · rw [sendConfig, if_pos hsock, hbw]
    norm_num

/-- Demo state with an open socket and a requested bandwidth of 1 MHz. -/
def openState1M : CState :=
  { initState 156800000 1000000 4 with socket := some .opened }

/-- Demo state with an open socket and a requested bandwidth of 5 MHz. -/
def openState5M : CState :=
  { initState 156800000 5000000 4 with socket := some .opened }

/-- Witness for C5: concrete states discharging each hypothesis, and a
concrete message of a concrete run for the universal bound. -/
theorem c5_witness :
    openState1M.socket = some SocketState.opened ∧ openState1M.bandwidthHz = 1000000 ∧
    sendConfig openState1M
        = [{ center_hz := openState1M.centerHz, bandwidth_hz := 2000000 }] ∧
    openState5M.socket = some SocketState.opened ∧ openState5M.bandwidthHz = 5000000 ∧
    sendConfig openState5M
        = [{ center_hz := openState5M.centerHz, bandwidth_hz := 5000000 }] ∧
    2000000 ≤ OutMsg.bandwidth_hz
        { center_hz := 156800000, bandwidth_hz := max 2000000 2000000 } := by
  refine ⟨rfl, rfl, c5_bandwidth_floor.2.1 openState1M rfl rfl, rfl, rfl,
    c5_bandwidth_floor.2.2 openState5M rfl rfl, ?_⟩
  refine c5_bandwidth_floor.1 (initState 156800000 2000000 4) [.mountEv 2, .openEv] _ ?_
  have h : (run (initState 156800000 2000000 4) [.mountEv 2, .openEv]).2 =
      [{ center_hz := 156800000, bandwidth_hz := max 2000000 2000000 },
       { center_hz := 156800000, bandwidth_hz := max 2000000 2000000 }] := by
    simp [run, step, initState, sendConfig]
  rw [h]
  exact List.mem_cons_self _ _

/-! ## Claim C7 -/

/-- C7: the colormap clamps: every sample at or below MIN_DBFS gets the
identical color as MIN_DBFS itself, and every sample at or above MAX_DBFS
gets the identical color as MAX_DBFS itself. -/
theorem c7_colormap_clamps :
    (∀ v : ℚ, v ≤ MIN_DBFS → colormapRgba v = colormapRgba MIN_DBFS) ∧
    (∀ v : ℚ, MAX_DBFS ≤ v → colormapRgba v = colormapRgba MAX_DBFS) := by
  have hden : (0 : ℚ) < MAX_DBFS - MIN_DBFS := by norm_num [MIN_DBFS, MAX_DBFS]
  have floorClamp : ∀ v : ℚ, v ≤ MIN_DBFS →
      max 0 (min 1 ((v - MIN_DBFS) / (MAX_DBFS - MIN_DBFS))) = 0 := by
    intro v hv
    have hnum : v - MIN_DBFS ≤ 0 := by linarith
    have hq : (v - MIN_DBFS) / (MAX_DBFS - MIN_DBFS) ≤ 0 :=
      div_nonpos_of_nonpos_of_nonneg hnum (le_of_lt hden)
    rw [min_eq_right (le_trans hq zero_le_one), max_eq_left hq]
  have ceilClamp : ∀ v : ℚ, MAX_DBFS ≤ v →
      max 0 (min 1 ((v - MIN_DBFS) / (MAX_DBFS - MIN_DBFS))) = 1 := by
    intro v hv
    have hq : (1 : ℚ) ≤ (v - MIN_DBFS) / (MAX_DBFS - MIN_DBFS) := by
      rw [le_div_iff₀ hden]
      linarith
    rw [min_eq_left hq, max_eq_right zero_le_one]
  constructor
  · intro v hv
    have h : dbfsToLutIdx v = dbfsToLutIdx MIN_DBFS := by
      unfold dbfsToLutIdx
      rw [floorClamp v hv, floorClamp MIN_DBFS (le_refl _)]
    unfold colormapRgba
    rw [h]
  · intro v hv
    have h : dbfsToLutIdx v = dbfsToLutIdx MAX_DBFS := by
      unfold dbfsToLutIdx
      rw [ceilClamp v hv, ceilClamp MAX_DBFS (le_refl _)]
    unfold colormapRgba
    rw [h]

/-- Witness for C7 at the concrete samples -150 dBFS and 7 dBFS. -/
theorem c7_witness :
    (-150 : ℚ) ≤ MIN_DBFS ∧ colormapRgba (-150) = colormapRgba MIN_DBFS ∧
    MAX_DBFS ≤ 7 ∧ colormapRgba 7 = colormapRgba MAX_DBFS :=
  ⟨by norm_num [MIN_DBFS], c7_colormap_clamps.1 (-150) (by norm_num [MIN_DBFS]),
   by norm_num [MAX_DBFS], c7_colormap_clamps.2 7 (by norm_num [MAX_DBFS])⟩

/-! ## Claim C1 -/

/-- A Live component state: mounted with client width 2, socket opened. -/
def liveDemo : CState :=
  (run (initState 156800000 2000000 4) [.mountEv 2, .openEv]).1

/-- C1 counterexample: while Live (connected, socket open) with pair
(156800000, 2000000), changing the desired pair to (157000000, 2500000)
produces no outbound set_config message, because the reactive statement
`$: if (connected) sendConfig();` depends only on `connected` and no other
code path reacts to prop changes — contradicting the claim that changing
the desired pair while Live produces a new send. -/
theorem c1_counterexample :
    liveDemo.connected = true ∧
    liveDemo.centerHz = 156800000 ∧
    liveDemo.bandwidthHz = 2000000 ∧
    (156800000 : ℚ) ≠ 157000000 ∧
    (step (.setPropsEv 157000000 2500000) liveDemo).2 = [] := by
  refine ⟨by decide, rfl, rfl, by norm_num, rfl⟩

/-- C1 (amended): the component tracks no last-sent pair.  set_config
messages are produced only by the open event: a prop change (even while
Live, and even to a different pair) produces no send, every event other
than open produces no send, and each open event entered from a
disconnected state produces exactly two identical set_config messages for
the current pair (one from the open listener's direct sendConfig call, a
second from the reactive statement re-running because `connected` changed). -/
theorem c1_amended :
    (∀ (s : CState) (c b : ℚ), (step (.setPropsEv c b) s).2 = []) ∧
    (∀ s : CState, s.connected = false →
      (step .openEv s).2 =
        [{ center_hz := s.centerHz, bandwidth_hz := max 2000000 s.bandwidthHz },
         { center_hz := s.centerHz, bandwidth_hz := max 2000000 s.bandwidthHz }]) ∧
    (∀ (s : CState) (e : Event), e ≠ .openEv → (step e s).2 = []) := by
  refine ⟨fun s c b => rfl, fun s hs => ?_, fun s e he => ?_⟩
  · simp [step, hs, sendConfig]
  · cases e with
    | mountEv w => rfl
    | openEv => exact absurd rfl he
    | messageEv d =>
      cases d with
      | malformed => rfl
      | payload p =>
        by_cases hp : p.type = some "spectrum"
        · simp only [step, hp, if_true]
          rcases p.dbfs with _ | f
          · rfl
          · cases f with
            | arr xs => rfl
            | nonArray => rfl
        · simp [step, hp]
    | closeEv => rfl
    | errorEv => rfl
    | setPropsEv c b => rfl
    | timerFireEv =>
      rcases ht : s.reconnectTimer with _ | d
      · simp [step, ht]
      · simp [step, ht]
    | teardownEv => rfl

/-- Witness for C1 (amended): a disconnected initial state transitions into
Live producing exactly two messages, and an error event produces none. -/
theorem c1_amended_witness :
    (initState 156800000 2000000 4).connected = false ∧
    (step .openEv (initState 156800000 2000000 4)).2 =
      [{ center_hz := (initState 156800000 2000000 4).centerHz,
         bandwidth_hz := max 2000000 (initState 156800000 2000000 4).bandwidthHz },
       { center_hz := (initState 156800000 2000000 4).centerHz,
         bandwidth_hz := max 2000000 (initState 156800000 2000000 4).bandwidthHz }] ∧
    Event.errorEv ≠ Event.openEv ∧
    (step .errorEv (initState 156800000 2000000 4)).2 = [] :=
  ⟨rfl, c1_amended.2.1 _ rfl, by simp,
   c1_amended.2.2 (initState 156800000 2000000 4) .errorEv (by simp)⟩

/-! ## Claim C4 -/

/-- C4 (code bug): the teardown itself cancels the timer, closes the socket
and stops observing, but closing a live socket makes the browser fire that
socket's close event afterwards, and the still-attached close listener then
increments the attempt counter and schedules a fresh 900 ms reconnect
timer, which on firing opens a new socket — so after teardown from the
Live state a reconnect timer IS pending and a reconnect DOES fire,
contradicting the claim.  This evaluates the model at the failing input:
mount, open, teardown, then the delivered close event of the closed socket. -/
theorem c4_teardown_leak :
    (run (initState 156800000 2000000 4)
        [.mountEv 2, .openEv, .teardownEv]).1.reconnectTimer = none ∧
    (run (initState 156800000 2000000 4)
        [.mountEv 2, .openEv, .teardownEv]).1.socket = some .closed ∧
    (run (initState 156800000 2000000 4)
        [.mountEv 2, .openEv, .teardownEv]).1.observing = false ∧
    (run (initState 156800000 2000000 4)
        [.mountEv 2, .openEv, .teardownEv, .closeEv]).1.reconnectTimer = some 900 ∧
    (run (initState 156800000 2000000 4)
        [.mountEv 2, .openEv, .teardownEv, .closeEv]).1.reconnectAttempts = 1 ∧
    (run (initState 156800000 2000000 4)
        [.mountEv 2, .openEv, .teardownEv, .closeEv, .timerFireEv]).1.socket
        = some .connecting :=
  ⟨by decide, by decide, by decide, by decide, by decide, by decide⟩

/-! ## Claim C9 -/

/-- On an empty dbfs array every pixel's lookup index is min(-1, 0) = -1,
which reads undefined and falls back to MIN_DBFS, so the whole painted top
row is the colormap color of MIN_DBFS. -/
theorem renderRow_nil (w : ℕ) :
    renderRow w [] = List.replicate w (colormapRgba MIN_DBFS) := by
  apply List.eq_replicate_iff.mpr
  refine ⟨by simp only [renderRow, List.length_map, List.length_range], ?_⟩
  intro pix hpix
  simp only [renderRow, List.mem_map, List.mem_range] at hpix
  obtain ⟨x, _, rfl⟩ := hpix
  norm_num [jsIndex, min_def]

/-- The LUT index for MIN_DBFS is 0 (normalized position 0, rounded). -/
theorem dbfsToLutIdx_min_eq : dbfsToLutIdx MIN_DBFS = 0 := by
  norm_num [dbfsToLutIdx, MIN_DBFS, MAX_DBFS, jsRound, min_def, max_def]

/-- The color painted for MIN_DBFS is the LUT floor entry rgb(0, 0, 4). -/
theorem colormap_floor_color : colormapRgba MIN_DBFS = ⟨0, 0, 4, 255⟩ := by
  unfold colormapRgba
  rw [dbfsToLutIdx_min_eq]
  decide

/-- C9 counterexample: processing an accepted frame with sampleCount 0 on a
3-row background raster of width 2 leaves the top row NOT equal to the
background row, contradicting the claim that nothing beyond background is
painted. -/
theorem c9_counterexample :
    (drawRow 2 3 (List.replicate 3 (List.replicate 2 background)) []).head? ≠
      some (List.replicate 2 background) := by
  rw [drawRow, renderRow_nil, colormap_floor_color]
  intro h
  simp only [List.head?_cons, Option.some.injEq] at h
  exact absurd h (by decide)

/-- C9 (amended): an accepted frame with sampleCount == 0 still scrolls the
raster and paints the entire top row with the colormap color for MIN_DBFS,
rgb(0, 0, 4) — the Inferno floor color — which differs from the background
color rgb(7, 17, 38), because dbfs[min(length-1, binIdx)] reads dbfs[-1]
(undefined) and the ?? MIN_DBFS fallback feeds the colormap. -/
theorem c9_amended :
    ∀ (w h : ℕ) (raster : List (List Rgba)),
      (drawRow w h raster []).head? = some (List.replicate w (colormapRgba MIN_DBFS)) ∧
      colormapRgba MIN_DBFS = ⟨0, 0, 4, 255⟩ ∧
      background = ⟨7, 17, 38, 255⟩ ∧
      colormapRgba MIN_DBFS ≠ background := by
  intro w h raster
  refine ⟨?_, colormap_floor_color, rfl, ?_⟩
  · rw [drawRow, renderRow_nil]
    rfl
  · rw [colormap_floor_color]
    decide

/-! ## Claim C10 -/

/-- C10: the 2 MHz floor is applied only to the outbound message.  After a
prop change to (c, b), the stored bandwidthHz is the unclamped b, the
derived edges are leftHz = c - b/2 and rightHz = c + b/2 computed from the
unclamped b, while every message sent on the next open carries
max(2000000, b); for b below the floor the displayed span stays b while the
transmitted value is 2000000. -/
theorem c10_clamp_outbound_only :
    ∀ (s : CState) (c b : ℚ),
      (step (.setPropsEv c b) s).1.bandwidthHz = b ∧
      (step (.setPropsEv c b) s).1.leftHz = c - b / 2 ∧
      (step (.setPropsEv c b) s).1.rightHz = c + b / 2 ∧
      (∀ m ∈ (step .openEv (step (.setPropsEv c b) s).1).2,
        m.center_hz = c ∧ m.bandwidth_hz = max 2000000 b) ∧
      (b < 2000000 →
        (step (.setPropsEv c b) s).1.rightHz - (step (.setPropsEv c b) s).1.leftHz = b ∧
        ∀ m ∈ (step .openEv (step (.setPropsEv c b) s).1).2,
          m.bandwidth_hz = 2000000) := by
  intro s c b
  have hmem : ∀ m ∈ (step .openEv (step (.setPropsEv c b) s).1).2,
      m.center_hz = c ∧ m.bandwidth_hz = max 2000000 b := by
    intro m hm
    have := mem_step_out hm
    have hmsg : m = { center_hz := c, bandwidth_hz := max 2000000 b } := by
      simp only [step, List.mem_append] at hm
      rcases hm with hm | hm
      · exact mem_sendConfig hm
      · split at hm
        · simp at hm
        · exact mem_sendConfig hm
    rw [hmsg]
    exact ⟨rfl, rfl⟩
  refine ⟨rfl, rfl, rfl, hmem,
    fun hb => ⟨by show c + b / 2 - (c - b / 2) = b; ring, fun m hm => ?_⟩⟩
  rw [(hmem m hm).2, max_eq_left (le_of_lt hb)]

/-- Witness for C10 at the concrete request (156800000 Hz, 1000000 Hz):
the displayed span keeps the sub-floor bandwidth while a concrete
transmitted message carries the clamped 2000000. -/
theorem c10_witness :
    (1000000 : ℚ) < 2000000 ∧
    (step (.setPropsEv 156800000 1000000) (initState 156800000 2000000 4)).1.rightHz -
      (step (.setPropsEv 156800000 1000000) (initState 156800000 2000000 4)).1.leftHz
        = 1000000 ∧
    OutMsg.bandwidth_hz
        { center_hz := 156800000, bandwidth_hz := max 2000000 1000000 } = 2000000 := by
  have hlt : (1000000 : ℚ) < 2000000 := by norm_num
  have hmain := c10_clamp_outbound_only (initState 156800000 2000000 4) 156800000 1000000
  refine ⟨hlt, (hmain.2.2.2.2 hlt).1, ?_⟩
  have hout : (step .openEv
      (step (.setPropsEv 156800000 1000000) (initState 156800000 2000000 4)).1).2 =
      [{ center_hz := 156800000, bandwidth_hz := max 2000000 1000000 },
       { center_hz := 156800000, bandwidth_hz := max 2000000 1000000 }] := by
    simp [step, initState, sendConfig]
  refine (hmain.2.2.2.2 hlt).2 _ ?_
  rw [hout]
  exact List.mem_cons_self _ _

/-! ## Claim C6 -/

/-- Characterization of one message step: the raster advances by drawRow
exactly on accepted messages, and width, plotHeight, connected and the
output list are untouched by every message. -/
theorem message_step_spec (s : CState) (d : Inbound) :
    (step (.messageEv d) s).1.raster =
      (match spectrumSamples d with
       | none => s.raster
       | some xs => drawRow s.width s.plotHeight s.raster xs) ∧
    (step (.messageEv d) s).1.width = s.width ∧
    (step (.messageEv d) s).1.plotHeight = s.plotHeight ∧
    (step (.messageEv d) s).1.connected = s.connected ∧
    (step (.messageEv d) s).2 = [] := by
  cases d with
  | malformed => exact ⟨rfl, rfl, rfl, rfl, rfl⟩
  | payload p =>
    by_cases hp : p.type = some "spectrum"
    · rcases hd : p.dbfs with _ | f
      · simp [step, spectrumSamples, hp, hd]
      · cases f with
        | arr xs => simp [step, spectrumSamples, hp, hd]
        | nonArray => simp [step, spectrumSamples, hp, hd]
    · simp [step, spectrumSamples, hp]

/-- C6: every inbound message that is unparseable, has a type other than
"spectrum", or a non-array dbfs field is dropped leaving the whole state
(ConnectionState included) unchanged and producing no output; messages
never change `connected`; and over any message sequence, the raster is
exactly the fold of drawRow over the accepted frames in arrival order, so
the valid frames around a dropped one are still rendered in order. -/
theorem c6_invalid_dropped :
    (∀ (s : CState) (d : Inbound), spectrumSamples d = none →
      step (.messageEv d) s = (s, [])) ∧
    (∀ (s : CState) (d : Inbound),
      (step (.messageEv d) s).1.connected = s.connected) ∧
    (∀ (s : CState) (msgs : List Inbound),
      (run s (msgs.map .messageEv)).1.raster =
        (msgs.filterMap spectrumSamples).foldl
          (fun r xs => drawRow s.width s.plotHeight r xs) s.raster) := by
  refine ⟨fun s d hd => ?_, fun s d => (message_step_spec s d).2.2.2.1,
    fun s msgs => ?_⟩
  · cases d with
    | malformed => rfl
    | payload p =>
      by_cases hp : p.type = some "spectrum"
      · rcases hdb : p.dbfs with _ | f
        · simp [step, hp, hdb]
        · cases f with
          | arr xs => simp [spectrumSamples, hp, hdb] at hd
          | nonArray => simp [step, hp, hdb]
      · simp [step, hp]
  · induction msgs generalizing s with
    | nil => rfl
    | cons d rest ih =>
      rw [List.map_cons, run_cons]
      obtain ⟨hr, hw, hh, -, -⟩ := message_step_spec s d
      have hrest := ih (step (.messageEv d) s).1
      rw [hw, hh] at hrest
      rcases hd : spectrumSamples d with _ | xs
      · rw [hd] at hr
        simp only [List.filterMap_cons, hd]
        simpa [hr] using hrest
      · rw [hd] at hr
        simp only [List.filterMap_cons, hd, List.foldl_cons]
        simpa [hr] using hrest

/-- An inbound JSON message of shape a ping without a dbfs field. -/
def pingMsg : Inbound :=
  .payload { type := some "ping", dbfs := none, frame_rate_hz := none, source := none }

/-- Witness for C6: the concrete ping message is rejected by the acceptance
test and dropped with the concrete initial state fully unchanged. -/
theorem c6_witness :
    spectrumSamples pingMsg = none ∧
    step (.messageEv pingMsg) (initState 156800000 2000000 4)
      = (initState 156800000 2000000 4, []) :=
  ⟨rfl, c6_invalid_dropped.1 (initState 156800000 2000000 4) pingMsg rfl⟩

/-! ## Claim C8 -/

/-- C8: for every pixel x in [0, width) and nonempty frame, the rendered
pixel is the colormap of the sample at index
min(sampleCount - 1, floor(x / width × sampleCount)); with width 100 and 50
samples, pixel 0 reads sample 0 and pixel 99 reads sample 49. -/
theorem c8_bin_mapping :
    (∀ (w : ℕ) (dbfs : List ℚ) (x : ℕ), x < w → 0 < dbfs.length →
      (renderRow w dbfs)[x]? =
        some (colormapRgba (dbfs[min (dbfs.length - 1)
          (⌊(x : ℚ) / (w : ℚ) * (dbfs.length : ℚ)⌋).toNat]?.getD MIN_DBFS))) ∧
    (∀ dbfs : List ℚ, dbfs.length = 50 →
      (renderRow 100 dbfs)[0]?
          = some (colormapRgba (dbfs[0]?.getD MIN_DBFS)) ∧
      (renderRow 100 dbfs)[99]?
          = some (colormapRgba (dbfs[49]?.getD MIN_DBFS))) := by
  have main : ∀ (w : ℕ) (dbfs : List ℚ) (x : ℕ), x < w → 0 < dbfs.length →
      (renderRow w dbfs)[x]? =
        some (colormapRgba (dbfs[min (dbfs.length - 1)
          (⌊(x : ℚ) / (w : ℚ) * (dbfs.length : ℚ)⌋).toNat]?.getD MIN_DBFS)) := by
    intro w dbfs x hx hlen
    have hb : (0 : ℤ) ≤ ⌊(x : ℚ) / (w : ℚ) * (dbfs.length : ℚ)⌋ :=
      Int.floor_nonneg.mpr (by positivity)
    have hnot : ¬ (min ((dbfs.length : ℤ) - 1) ⌊(x : ℚ) / (w : ℚ) * (dbfs.length : ℚ)⌋ < 0) := by
      omega
    have htn : (min ((dbfs.length : ℤ) - 1)
        ⌊(x : ℚ) / (w : ℚ) * (dbfs.length : ℚ)⌋).toNat =
        min (dbfs.length - 1) (⌊(x : ℚ) / (w : ℚ) * (dbfs.length : ℚ)⌋).toNat := by
      omega
    unfold renderRow
    rw [List.getElem?_map, List.getElem?_range hx]
    simp only [Option.map_some']
    rw [jsIndex, if_neg hnot, htn]
  refine ⟨main, fun dbfs h50 => ⟨?_, ?_⟩⟩
  · have h := main 100 dbfs 0 (by norm_num) (by omega)
    rw [h50] at h
    norm_num at h
    exact h
  · have h := main 100 dbfs 99 (by norm_num) (by omega)
    rw [h50] at h
    norm_num [min_def] at h
    exact h

/-- Witness for C8 at a concrete 50-sample frame and pixel 99 of width 100. -/
theorem c8_witness :
    (List.replicate 50 (-60 : ℚ)).length = 50 ∧
    (renderRow 100 (List.replicate 50 (-60 : ℚ)))[99]? =
      some (colormapRgba ((List.replicate 50 (-60 : ℚ))[49]?.getD MIN_DBFS)) :=
  ⟨by simp, (c8_bin_mapping.2 (List.replicate 50 (-60 : ℚ)) (by simp)).2⟩

/-! ## Claim C2 -/

/-- Taking n+1 elements of a cons whose tail is a long enough replicate. -/
theorem take_cons_replicate {α : Type} (a x : α) (n m : ℕ) (h : n ≤ m) :
    (a :: List.replicate m x).take (n + 1) = a :: List.replicate n x := by
  rw [List.take_succ_cons, List.take_replicate, min_eq_left h]

/-- C2: starting from a freshly connected client (background raster of
height ph ≥ 3), processing three accepted 64-sample frames leaves the
raster with the three rendered frames as its top three rows, most recent
on top, and every other row still the background row it was initialized
to. -/
theorem c2_three_frames (c b : ℚ) (ph cw : ℕ) (f1 f2 f3 : List ℚ)
    (hph : 3 ≤ ph) (h1 : f1.length = 64) (h2 : f2.length = 64) (h3 : f3.length = 64) :
    (run (initState c b ph)
        [.mountEv cw, .openEv, .messageEv (spectrumMsg f1),
         .messageEv (spectrumMsg f2), .messageEv (spectrumMsg f3)]).1.raster =
      renderRow (max 1 cw) f3 :: renderRow (max 1 cw) f2 :: renderRow (max 1 cw) f1 ::
        List.replicate (ph - 3) (List.replicate (max 1 cw) background) := by
  obtain ⟨k, rfl⟩ : ∃ k, ph = k + 3 := ⟨ph - 3, by omega⟩
  have hstate : (run (initState c b (k + 3))
      [.mountEv cw, .openEv, .messageEv (spectrumMsg f1),
       .messageEv (spectrumMsg f2), .messageEv (spectrumMsg f3)]).1.raster =
      drawRow (max 1 cw) (k + 3) (drawRow (max 1 cw) (k + 3) (drawRow (max 1 cw) (k + 3)
        (List.replicate (k + 3) (List.replicate (max 1 cw) background)) f1) f2) f3 := rfl
  rw [hstate]
  have e1 : drawRow (max 1 cw) (k + 3)
      (List.replicate (k + 3) (List.replicate (max 1 cw) background)) f1 =
      renderRow (max 1 cw) f1 ::
        List.replicate (k + 2) (List.replicate (max 1 cw) background) := by
    rw [drawRow, show k + 3 - 1 = k + 2 from rfl, List.take_replicate,
        min_eq_left (by omega)]
  have e2 : drawRow (max 1 cw) (k + 3)
      (renderRow (max 1 cw) f1 ::
        List.replicate (k + 2) (List.replicate (max 1 cw) background)) f2 =
      renderRow (max 1 cw) f2 :: renderRow (max 1 cw) f1 ::
        List.replicate (k + 1) (List.replicate (max 1 cw) background) := by
    rw [drawRow, show k + 3 - 1 = k + 1 + 1 from rfl,
        take_cons_replicate _ _ (k + 1) (k + 2) (by omega)]
  have e3 : drawRow (max 1 cw) (k + 3)
      (renderRow (max 1 cw) f2 :: renderRow (max 1 cw) f1 ::
        List.replicate (k + 1) (List.replicate (max 1 cw) background)) f3 =
      renderRow (max 1 cw) f3 :: renderRow (max 1 cw) f2 :: renderRow (max 1 cw) f1 ::
        List.replicate k (List.replicate (max 1 cw) background) := by
    rw [drawRow, show k + 3 - 1 = k + 1 + 1 from rfl, List.take_succ_cons,
        take_cons_replicate _ _ k (k + 1) (by omega)]
  rw [e1, e2, e3, show k + 3 - 3 = k from rfl]

/-- Witness for C2 with plot height 4, client width 2 and three concrete
64-sample frames. -/
theorem c2_witness :
    3 ≤ 4 ∧ (List.replicate 64 (-60 : ℚ)).length = 64 ∧
    (List.replicate 64 (-50 : ℚ)).length = 64 ∧
    (List.replicate 64 (-40 : ℚ)).length = 64 ∧
    (run (initState 156800000 2000000 4)
        [.mountEv 2, .openEv, .messageEv (spectrumMsg (List.replicate 64 (-60 : ℚ))),
         .messageEv (spectrumMsg (List.replicate 64 (-50 : ℚ))),
         .messageEv (spectrumMsg (List.replicate 64 (-40 : ℚ)))]).1.raster =
      renderRow (max 1 2) (List.replicate 64 (-40 : ℚ)) ::
        renderRow (max 1 2) (List.replicate 64 (-50 : ℚ)) ::
        renderRow (max 1 2) (List.replicate 64 (-60 : ℚ)) ::
        List.replicate (4 - 3) (List.replicate (max 1 2) background) :=
  ⟨by norm_num, by simp, by simp, by simp,
   c2_three_frames 156800000 2000000 4 2 _ _ _ (by norm_num) (by simp) (by simp) (by simp)⟩

end Waterfall
